import Mathlib

/-!
Verification of the tuya2mqtt bridge: a shallow embedding of the
entity/device data model (`src/device.py`), the Home Assistant discovery
helpers (`src/homeassistant.py`), the MQTT command translation
(`src/mqtt_handler.py`) and the web control endpoint (`src/web_server.py`),
together with theorems checking the natural-language specification.

Python numbers (ints and floats) are modelled as rationals, Python `dict`s
as association lists, and fallible link operations as explicit result
values.
-/

set_option maxHeartbeats 1000000

namespace Tuya2Mqtt

/-- Python values appearing in DPS vectors, entity state and command
payloads: numbers (ints/floats modelled as rationals), booleans and
strings. -/
inductive PyVal where
  | num (q : ℚ)
  | bool (b : Bool)
  | str (s : String)
deriving DecidableEq

/-- Python truthiness of a value (`if value:`). -/
def pyTruthy : PyVal → Bool
  | .num q => q != 0
  | .bool b => b
  | .str s => s != ""

/-- Python `isinstance(value, (int, float))`; note that `bool` is a
subclass of `int` in Python, so booleans count as numeric. -/
def isNumeric : PyVal → Bool
  | .num _ => true
  | .bool _ => true
  | .str _ => false

/-- Numeric content of a value (Python arithmetic coerces `True`/`False`
to `1`/`0`). -/
def toQ : PyVal → ℚ
  | .num q => q
  | .bool b => if b then 1 else 0
  | .str _ => 0

/-- Python `int(q)`: truncation toward zero. -/
def pyInt (q : ℚ) : ℤ := if 0 ≤ q then ⌊q⌋ else ⌈q⌉

/-- Python `a or b` on values: `a` if truthy, else `b`
(`device.py` line 100). -/
def pyOr (a b : PyVal) : PyVal := if pyTruthy a then a else b

/-- An entity as built by `Entity.__init__` (`src/device.py`), with the
configuration-derived fields the verified operations read.  Field
defaults mirror the `entity_config.get(..., default)` calls. -/
structure Entity where
  device_id : String
  platform : String := "switch"
  name : String := "entity"
  dps_map : List (String × ℤ) := []
  scale : ℚ := 1
  brightness_range : ℚ × ℚ := (10, 1000)
  color_temp_range : ℚ × ℚ := (0, 1000)
  speed_range : ℚ × ℚ := (1, 3)
  temp_step : ℚ := 1/2
  states : List (String × String) := []
  options : List String := []
  state : List (String × PyVal) := []
deriving DecidableEq

/-- `Entity.entity_id`: `f"{self.device_id}_{self.name}"`. -/
def Entity.entity_id (e : Entity) : String := e.device_id ++ "_" ++ e.name

/-- `Entity.get_dps`: `self.dps_map.get(key)`. -/
def Entity.get_dps (e : Entity) (key : String) : Option ℤ :=
  e.dps_map.lookup key

/-- The scaling step of `Entity.update_state`: multiply by `scale` only
when `scale != 1.0` and the value is numeric. -/
def applyScale (scale : ℚ) (v : PyVal) : PyVal :=
  if scale ≠ 1 ∧ isNumeric v then .num (toQ v * scale) else v

/-- `Entity.update_state` (`src/device.py` lines 83-95): reset `state`
to empty, then for each `(key, dps_num)` of `dps_map` whose number is
present in the vector, append the (possibly scaled) raw value. -/
def Entity.update_state (e : Entity) (dps_values : List (ℤ × PyVal)) : Entity :=
  { e with
    state := e.dps_map.foldl (fun acc kd =>
      match dps_values.lookup kd.2 with
      | some v => acc ++ [(kd.1, applyScale e.scale v)]
      | none => acc) [] }

/-- `Entity.get_state_value` (`src/device.py` lines 97-115); the final
`return None` is modelled by `none`. -/
def Entity.get_state_value (e : Entity) : Option PyVal :=
  if e.platform ∈ [("light" : String), "switch", "fan", "lock"] then
    some (pyOr ((e.state.lookup ("switch")).getD (.bool false))
               ((e.state.lookup ("lock")).getD (.bool false)))
  else if e.platform ∈ [("sensor" : String), "number"] then
    some ((e.state.lookup ("value")).getD (.num 0))
  else if e.platform = "binary_sensor" then
    some ((e.state.lookup ("state")).getD (.bool false))
  else if e.platform = "cover" then
    some ((e.state.lookup ("position")).getD (.num 0))
  else if e.platform = "climate" then
    some ((e.state.lookup ("current_temp")).getD (.num 20))
  else if e.platform = "alarm_control_panel" then
    some ((e.state.lookup ("state")).getD (.str "disarmed"))
  else if e.platform = "vacuum" then
    some ((e.state.lookup ("status")).getD (.str "docked"))
  else if e.platform = "select" then
    some ((e.state.lookup ("option")).getD
      (match e.options with
       | o :: _ => .str o
       | [] => .str ""))
  else none

/-- A Tuya device (`TuyaDevice.__init__`), restricted to the fields the
verified operations touch. -/
structure TuyaDevice where
  device_id : String
  name : String := ""
  entities : List Entity := []
  last_state : List (ℤ × PyVal) := []
  available : Bool := true
deriving DecidableEq

/-- `TuyaDevice.get_entity_by_id`: first entity whose `entity_id`
matches. -/
def TuyaDevice.get_entity_by_id (d : TuyaDevice) (eid : String) : Option Entity :=
  d.entities.find? (fun e => e.entity_id == eid)

/-- Outcome of the `self.device.status()` link call inside
`TuyaDevice.get_status`: `none` models a raised exception, `some none`
a falsy result or one without a `dps` entry, `some (some dps)` a
payload carrying the DPS vector. -/
abbrev LinkResult := Option (Option (List (ℤ × PyVal)))

/-- `TuyaDevice.get_status` (`src/device.py` lines 166-203), with the
link outcome passed explicitly and the database/time side effects (which
do not touch device or entity state) omitted. -/
def TuyaDevice.get_status (d : TuyaDevice) :
    LinkResult → TuyaDevice × Option (List (ℤ × PyVal))
  | some (some dps) =>
      ({ d with
          last_state := dps,
          available := true,
          entities := d.entities.map (fun e => e.update_state dps) },
        some dps)
  | some none => ({ d with available := false }, none)
  | none => ({ d with available := false }, none)

/-- `HomeAssistantDiscovery._get_light_color_modes`
(`src/homeassistant.py` lines 235-265). -/
def get_light_color_modes (e : Entity) : List String :=
  if (e.get_dps ("color")).isSome then ["hs"]
  else if (e.get_dps ("color_temp")).isSome then ["color_temp"]
  else if (e.get_dps ("brightness")).isSome then ["brightness"]
  else ["onoff"]

/-- C3: for every light entity the color-mode list is a singleton chosen
by exclusive precedence color > color_temp > brightness > onoff, and
"brightness" never appears together with another mode. -/
theorem c3_light_color_modes (e : Entity) :
    (get_light_color_modes e).length = 1 ∧
    (get_light_color_modes e = ["hs"] ↔ (e.get_dps ("color")).isSome) ∧
    (get_light_color_modes e = ["color_temp"] ↔
      (¬(e.get_dps ("color")).isSome ∧ (e.get_dps ("color_temp")).isSome)) ∧
    (get_light_color_modes e = ["brightness"] ↔
      (¬(e.get_dps ("color")).isSome ∧ ¬(e.get_dps ("color_temp")).isSome ∧
        (e.get_dps ("brightness")).isSome)) ∧
    (get_light_color_modes e = ["onoff"] ↔
      (¬(e.get_dps ("color")).isSome ∧ ¬(e.get_dps ("color_temp")).isSome ∧
        ¬(e.get_dps ("brightness")).isSome)) ∧
    ("brightness" ∈ get_light_color_modes e ↔
      get_light_color_modes e = ["brightness"]) := by
  cases h1 : (e.get_dps ("color")).isSome <;>
    cases h2 : (e.get_dps ("color_temp")).isSome <;>
      cases h3 : (e.get_dps ("brightness")).isSome <;>
        simp [get_light_color_modes, h1, h2, h3]

/-- A key is found by `List.lookup` exactly when it occurs among the
keys of the association list. -/
theorem lookup_isSome_iff {α β : Type} [BEq α] [LawfulBEq α]
    (l : List (α × β)) (k : α) :
    (l.lookup k).isSome ↔ k ∈ l.map Prod.fst := by
  induction l with
  | nil => simp
  | cons p rest ih =>
    obtain ⟨a, b⟩ := p
    by_cases hak : k = a
    · subst hak; simp [List.lookup_cons]
    · simp [List.lookup_cons, beq_false_of_ne hak, hak, ih]

/-- The loop of `Entity.update_state`, which conditionally appends one
entry per `dps_map` item, is a `filterMap`. -/
theorem update_state_foldl_aux (scale : ℚ) (dps : List (ℤ × PyVal)) :
    ∀ (l : List (String × ℤ)) (acc : List (String × PyVal)),
      l.foldl (fun acc kd =>
        match dps.lookup kd.2 with
        | some v => acc ++ [(kd.1, applyScale scale v)]
        | none => acc) acc
      = acc ++ l.filterMap (fun kd =>
          (dps.lookup kd.2).map (fun v => (kd.1, applyScale scale v))) := by
  intro l
  induction l with
  | nil => intro acc; simp
  | cons x xs ih =>
    intro acc
    cases h : dps.lookup x.2 with
    | some v => simp [List.foldl_cons, List.filterMap_cons, h, ih]
    | none => simp [List.foldl_cons, List.filterMap_cons, h, ih]

/-- The state computed by `Entity.update_state` as a `filterMap` over
`dps_map`. -/
theorem update_state_eq_filterMap (e : Entity) (dps : List (ℤ × PyVal)) :
    (e.update_state dps).state =
      e.dps_map.filterMap (fun kd =>
        (dps.lookup kd.2).map (fun v => (kd.1, applyScale e.scale v))) := by
  have h := update_state_foldl_aux e.scale dps e.dps_map []
  rw [List.nil_append] at h
  exact h

/-- Keys of the scaled `filterMap` all come from the mapping. -/
theorem keys_scaled_filterMap_subset (scale : ℚ) (dps : List (ℤ × PyVal))
    (m : List (String × ℤ)) (k : String)
    (h : k ∈ (m.filterMap (fun kd =>
      (dps.lookup kd.2).map (fun v => (kd.1, applyScale scale v)))).map Prod.fst) :
    k ∈ m.map Prod.fst := by
  obtain ⟨p, hp, hpk⟩ := List.mem_map.1 h
  obtain ⟨kd, hkd, hkdp⟩ := List.mem_filterMap.1 hp
  cases hv : dps.lookup kd.2 with
  | none => rw [hv] at hkdp; simp at hkdp
  | some v =>
    rw [hv] at hkdp
    simp only [Option.map_some'] at hkdp
    have hpe := Option.some.inj hkdp
    apply List.mem_map.2
    exact ⟨kd, hkd, by rw [← hpk, ← hpe]⟩

/-- Lookup characterization of the scaled `filterMap`, for a mapping
with distinct keys (it comes from a Python dict). -/
theorem lookup_scaled_filterMap (scale : ℚ) (dps : List (ℤ × PyVal)) :
    ∀ m : List (String × ℤ), (m.map Prod.fst).Nodup → ∀ k : String,
      (m.filterMap (fun kd =>
        (dps.lookup kd.2).map (fun v => (kd.1, applyScale scale v)))).lookup k
        = (m.lookup k).bind
            (fun n => (dps.lookup n).map (applyScale scale)) := by
  intro m
  induction m with
  | nil => intro _ k; simp
  | cons kd rest ih =>
    intro hnd k
    obtain ⟨a, n⟩ := kd
    simp only [List.map_cons, List.nodup_cons] at hnd
    obtain ⟨hnot, hrest⟩ := hnd
    by_cases hak : k = a
    · subst hak
      rw [show List.lookup k ((k, n) :: rest) = some n from by
        simp [List.lookup_cons]]
      cases hv : dps.lookup n with
      | some v => simp [List.filterMap_cons, hv, List.lookup_cons]
      | none =>
        simp only [List.filterMap_cons, hv, Option.map_none',
          Option.some_bind]
        rw [← Option.not_isSome_iff_eq_none]
        intro hsome
        exact hnot (keys_scaled_filterMap_subset scale dps rest k
          ((lookup_isSome_iff _ k).1 hsome))
    · rw [show List.lookup k ((a, n) :: rest) = List.lookup k rest from by
        simp [List.lookup_cons, beq_false_of_ne hak]]
      cases hv : dps.lookup n with
      | some v =>
        simp only [List.filterMap_cons, hv, Option.map_some']
        rw [show List.lookup k ((a, applyScale scale v) ::
            rest.filterMap (fun kd => (dps.lookup kd.2).map
              (fun v => (kd.1, applyScale scale v)))) =
            List.lookup k (rest.filterMap (fun kd => (dps.lookup kd.2).map
              (fun v => (kd.1, applyScale scale v)))) from by
          simp [List.lookup_cons, beq_false_of_ne hak]]
        exact ih hrest k
      | none =>
        simp only [List.filterMap_cons, hv, Option.map_none']
        exact ih hrest k

/-- C1: `Entity.update_state` fully replaces the previous state: the new
state maps each semantic key whose DPS number is present in the vector to
the raw value with the source's scaling step applied, contains exactly
those keys and no others, scale `1` (the default) is the identity, a
different scale multiplies numeric values, and the update is idempotent. -/
theorem c1_update_state (e : Entity) (dps : List (ℤ × PyVal))
    (hnd : (e.dps_map.map Prod.fst).Nodup) :
    (∀ k : String, ((e.update_state dps).state).lookup k =
      (e.dps_map.lookup k).bind
        (fun n => (dps.lookup n).map (applyScale e.scale))) ∧
    (∀ k : String, k ∈ ((e.update_state dps).state).map Prod.fst ↔
      ∃ n : ℤ, e.dps_map.lookup k = some n ∧ n ∈ dps.map Prod.fst) ∧
    (∀ v : PyVal, applyScale 1 v = v) ∧
    (∀ (q : ℚ) (v : PyVal), isNumeric v → q ≠ 1 →
      applyScale q v = .num (toQ v * q)) ∧
    (e.update_state dps).update_state dps = e.update_state dps := by
  have hlook : ∀ k : String, ((e.update_state dps).state).lookup k =
      (e.dps_map.lookup k).bind
        (fun n => (dps.lookup n).map (applyScale e.scale)) := by
    intro k
    rw [update_state_eq_filterMap]
    exact lookup_scaled_filterMap e.scale dps e.dps_map hnd k
  refine ⟨hlook, ?_, ?_, ?_, rfl⟩
  · intro k
    constructor
    · intro hk
      have hk2 : k ∈ e.dps_map.map Prod.fst := by
        rw [update_state_eq_filterMap] at hk
        exact keys_scaled_filterMap_subset e.scale dps e.dps_map k hk
      obtain ⟨n, hn⟩ := Option.isSome_iff_exists.1
        ((lookup_isSome_iff _ k).2 hk2)
      refine ⟨n, hn, ?_⟩
      have hs := (lookup_isSome_iff _ k).2 hk
      rw [hlook k, hn] at hs
      simp only [Option.some_bind, Option.isSome_map'] at hs
      exact (lookup_isSome_iff _ n).1 hs
    · rintro ⟨n, hn, hmem⟩
      apply (lookup_isSome_iff _ k).1
      rw [hlook k, hn]
      simp only [Option.some_bind, Option.isSome_map']
      exact (lookup_isSome_iff _ n).2 hmem
  · intro v; simp [applyScale]
  · intro q v hnum hq; simp [applyScale, hnum, hq]

/-- Concrete entity for the `c1_update_state` witness: a sensor with a
scale of `1/10` and a stale previous state. -/
def entC1 : Entity :=
  { device_id := "d", dps_map := [("switch", 1), ("value", 2)],
    scale := 1/10, state := [("old", .num 5)] }

/-- Concrete instance of `c1_update_state`: the scaled numeric value
lands in the state and the key of an absent DPS number does not. -/
theorem c1_update_state_witness :
    (entC1.update_state [(2, .num 40), (3, .num 7)]).state.lookup ("value")
        = some (.num 4) ∧
    (entC1.update_state [(2, .num 40), (3, .num 7)]).state.lookup ("switch")
        = none := by
  have h := c1_update_state entC1 [(2, .num 40), (3, .num 7)] (by decide)
  have h1 := h.1 ("value")
  have h2 := h.1 ("switch")
  rw [h1, h2]
  constructor
  · simp [entC1, List.lookup_cons, applyScale, isNumeric, toQ]
    norm_num
  · simp [entC1, List.lookup_cons]

/-- C2: a failed refresh (raised link error, or payload without a DPS
vector) sets `available` to false, leaves `last_state` and all entity
states untouched and returns nothing; a subsequent successful refresh
restores `available`, installs the new vector and recomputes every
entity's state from it wholesale. -/
theorem c2_get_status (d : TuyaDevice) (res : LinkResult)
    (hfail : res = none ∨ res = some none) :
    ((d.get_status res).1.available = false ∧
     (d.get_status res).1.last_state = d.last_state ∧
     (d.get_status res).1.entities = d.entities ∧
     (d.get_status res).2 = none) ∧
    (∀ dps : List (ℤ × PyVal),
      ((d.get_status res).1.get_status (some (some dps))).1.available = true ∧
      ((d.get_status res).1.get_status (some (some dps))).1.last_state = dps ∧
      ((d.get_status res).1.get_status (some (some dps))).1.entities
        = d.entities.map (fun e => e.update_state dps) ∧
      ((d.get_status res).1.get_status (some (some dps))).2 = some dps) := by
  rcases hfail with h | h <;> subst h <;>
    exact ⟨⟨rfl, rfl, rfl, rfl⟩, fun dps => ⟨rfl, rfl, rfl, rfl⟩⟩

/-- Concrete device for the `c2_get_status` witness. -/
def devC2 : TuyaDevice :=
  { device_id := "d",
    entities := [{ device_id := "d", name := "s", dps_map := [("switch", 1)] }],
    last_state := [(1, .bool true)] }

/-- Concrete instance of `c2_get_status`: a device whose refresh raised
becomes unavailable with `last_state` intact, and recovers on the next
successful poll. -/
theorem c2_get_status_witness :
    (devC2.get_status none).1.available = false ∧
    (devC2.get_status none).1.last_state = [(1, .bool true)] ∧
    ((devC2.get_status none).1.get_status
      (some (some [(1, .bool false)]))).1.available = true := by
  have h := c2_get_status devC2 none (Or.inl rfl)
  exact ⟨h.1.1, h.1.2.1, (h.2 [(1, .bool false)]).1⟩

/-- C9: the primary-value projection depends only on platform, state and
(for select) the configured options, and follows the default table of
the specification. -/
theorem c9_get_state_value (e : Entity) :
    (∀ e2 : Entity, e.platform = e2.platform → e.state = e2.state →
      e.options = e2.options → e.get_state_value = e2.get_state_value) ∧
    (e.platform ∈ [("light" : String), "switch", "fan", "lock"] →
      e.get_state_value = some (pyOr
        ((e.state.lookup ("switch")).getD (.bool false))
        ((e.state.lookup ("lock")).getD (.bool false)))) ∧
    (e.platform ∈ [("sensor" : String), "number"] →
      e.get_state_value = some ((e.state.lookup ("value")).getD (.num 0))) ∧
    (e.platform = "climate" →
      e.get_state_value = some ((e.state.lookup ("current_temp")).getD (.num 20))) ∧
    (e.platform = "alarm_control_panel" →
      e.get_state_value = some ((e.state.lookup ("state")).getD (.str "disarmed"))) ∧
    (e.platform = "vacuum" →
      e.get_state_value = some ((e.state.lookup ("status")).getD (.str "docked"))) ∧
    (e.platform = "select" →
      e.get_state_value = some ((e.state.lookup ("option")).getD
        (match e.options with
         | o :: _ => .str o
         | [] => .str ""))) := by
  refine ⟨?_, ?_, ?_, ?_, ?_, ?_, ?_⟩
  · intro e2 hp hs ho
    simp only [Entity.get_state_value, hp, hs, ho]
  · intro hp
    have h : e.platform = "light" ∨ e.platform = "switch" ∨
        e.platform = "fan" ∨ e.platform = "lock" := by simpa using hp
    rcases h with h | h | h | h <;> simp [Entity.get_state_value, h]
  · intro hp
    have h : e.platform = "sensor" ∨ e.platform = "number" := by simpa using hp
    rcases h with h | h <;> simp [Entity.get_state_value, h]
  · intro hp; simp [Entity.get_state_value, hp]
  · intro hp; simp [Entity.get_state_value, hp]
  · intro hp; simp [Entity.get_state_value, hp]
  · intro hp; simp [Entity.get_state_value, hp]

/-- Concrete instance of `c9_get_state_value`: the climate default of 20
and the select first-option default. -/
theorem c9_get_state_value_witness :
    ({ device_id := "d", platform := "climate" } : Entity).get_state_value
      = some (.num 20) ∧
    ({ device_id := "d", platform := "select",
       options := ["a", "b"] } : Entity).get_state_value = some (.str "a") := by
  constructor
  · have h := (c9_get_state_value
      ({ device_id := "d", platform := "climate" } : Entity)).2.2.2.1 rfl
    rw [h]; rfl
  · have h := (c9_get_state_value
      ({ device_id := "d", platform := "select",
         options := ["a", "b"] } : Entity)).2.2.2.2.2.2 rfl
    rw [h]; rfl

/-- The character class `[a-zA-Z0-9_-]` kept by
`HomeAssistantDiscovery.sanitize_topic`. -/
def allowed_char (c : Char) : Bool := c.isAlphanum || c = '_' || c = '-'

/-- `text.replace(' ', '_')`, per character. -/
def space_to_underscore (c : Char) : Char := if c = ' ' then '_' else c

/-- `re.sub(r'_+', '_', text)`: collapse every run of underscores to a
single one.  The flag records whether the previous kept character closed
an underscore run. -/
def collapse_underscores : Bool → List Char → List Char
  | _, [] => []
  | prevU, c :: rest =>
    if c = '_' then
      if prevU then collapse_underscores true rest
      else '_' :: collapse_underscores true rest
    else c :: collapse_underscores false rest

/-- `text.strip('_')`: drop leading and trailing underscores. -/
def strip_underscores (l : List Char) : List Char :=
  (l.dropWhile (fun c => c = '_')).rdropWhile (fun c => c = '_')

/-- `HomeAssistantDiscovery.sanitize_topic` (`src/homeassistant.py`
lines 17-31): replace spaces by underscores, strip characters outside
`[a-zA-Z0-9_-]`, collapse runs of underscores, trim edge underscores. -/
def sanitize_topic (s : String) : String :=
  ⟨strip_underscores (collapse_underscores false
    ((s.data.map space_to_underscore).filter allowed_char))⟩

/-- Characters produced by `collapse_underscores` come from its input. -/
theorem mem_collapse_underscores {c : Char} :
    ∀ (b : Bool) (l : List Char), c ∈ collapse_underscores b l → c ∈ l := by
  intro b l
  induction l generalizing b with
  | nil => simp [collapse_underscores]
  | cons x rest ih =>
    intro hmem
    by_cases hx : x = '_'
    · cases b with
      | true =>
        rw [show collapse_underscores true (x :: rest)
            = collapse_underscores true rest from by
          simp [collapse_underscores, hx]] at hmem
        exact List.mem_cons_of_mem x (ih true hmem)
      | false =>
        rw [show collapse_underscores false (x :: rest)
            = '_' :: collapse_underscores true rest from by
          simp [collapse_underscores, hx]] at hmem
        rcases List.mem_cons.1 hmem with h | h
        · simp [h, hx]
        · exact List.mem_cons_of_mem x (ih true h)
    · rw [show collapse_underscores b (x :: rest)
          = x :: collapse_underscores false rest from by
        simp [collapse_underscores, hx]] at hmem
      rcases List.mem_cons.1 hmem with h | h
      · simp [h]
      · exact List.mem_cons_of_mem x (ih false h)

/-- After an underscore was just emitted, the collapsed list never
starts with another underscore. -/
theorem head_collapse_underscores_true :
    ∀ l : List Char, (collapse_underscores true l).head? ≠ some '_' := by
  intro l
  induction l with
  | nil => simp [collapse_underscores]
  | cons x rest ih =>
    by_cases hx : x = '_'
    · simpa [collapse_underscores, hx] using ih
    · simp [collapse_underscores, hx]

/-- The collapsed list never contains two adjacent underscores. -/
theorem chain_collapse_underscores :
    ∀ (b : Bool) (l : List Char),
      List.Chain' (fun a b => a ≠ '_' ∨ b ≠ '_') (collapse_underscores b l) := by
  intro b l
  induction l generalizing b with
  | nil => simp [collapse_underscores]
  | cons x rest ih =>
    by_cases hx : x = '_'
    · cases b with
      | true => simpa [collapse_underscores, hx] using ih true
      | false =>
        simp only [collapse_underscores, hx, if_pos, if_neg Bool.false_ne_true]
        rw [List.chain'_cons']
        refine ⟨?_, ih true⟩
        intro y hy
        right
        intro hy'
        exact head_collapse_underscores_true rest (by rw [hy, hy'])
    · simp only [collapse_underscores, if_neg hx]
      rw [List.chain'_cons']
      exact ⟨fun y _ => Or.inl hx, ih false⟩

/-- Stripping edge underscores yields a sublist. -/
theorem strip_underscores_sublist (l : List Char) :
    (strip_underscores l).Sublist l := by
  have h1 := List.rdropWhile_prefix (fun c => c = '_')
    (l.dropWhile (fun c => c = '_'))
  exact h1.sublist.trans (List.dropWhile_suffix _).sublist

/-- The stripped list never starts with an underscore. -/
theorem head_strip_underscores (l : List Char) :
    (strip_underscores l).head? ≠ some '_' := by
  cases hr : strip_underscores l with
  | nil => simp
  | cons y ys =>
    intro hy
    simp only [List.head?_cons, Option.some.injEq] at hy
    obtain ⟨t, ht⟩ := List.rdropWhile_prefix (fun c => c = '_')
      (l.dropWhile (fun c => c = '_'))
    have hr2 : (l.dropWhile (fun c => c = '_')).rdropWhile (fun c => c = '_')
        = y :: ys := hr
    rw [hr2] at ht
    have hne : l.dropWhile (fun c => c = '_') ≠ [] := by
      rw [← ht]; simp
    have hhd := List.head_dropWhile_not (fun c => c = '_') l hne
    have hh : (l.dropWhile (fun c => c = '_')).head? = some y := by
      rw [← ht, List.cons_append, List.head?_cons]
    rw [List.head?_eq_head hne, Option.some.injEq] at hh
    rw [hh, hy] at hhd
    simp at hhd

/-- The stripped list never ends with an underscore. -/
theorem getLast_strip_underscores (l : List Char) :
    (strip_underscores l).getLast? ≠ some '_' := by
  by_cases hnil : strip_underscores l = []
  · rw [hnil]; simp
  · rw [List.getLast?_eq_getLast_of_ne_nil hnil]
    intro h
    have hlast := List.rdropWhile_last_not (fun c => c = '_')
      (l.dropWhile (fun c => c = '_')) hnil
    rw [Option.some.injEq] at h
    simp only [decide_eq_true_eq] at hlast
    exact hlast h

/-- C6: the sanitized topic contains only characters in `[a-zA-Z0-9_-]`
(in particular no spaces and no non-ASCII letters, which are removed,
not transliterated), has no two adjacent underscores, and neither starts
nor ends with an underscore. -/
theorem c6_sanitize_topic (s : String) :
    (∀ c ∈ (sanitize_topic s).data, allowed_char c) ∧
    (∀ c ∈ (sanitize_topic s).data, c ≠ ' ') ∧
    List.Chain' (fun a b => a ≠ '_' ∨ b ≠ '_') (sanitize_topic s).data ∧
    (sanitize_topic s).data.head? ≠ some '_' ∧
    (sanitize_topic s).data.getLast? ≠ some '_' := by
  have hdata : (sanitize_topic s).data =
      strip_underscores (collapse_underscores false
        ((s.data.map space_to_underscore).filter allowed_char)) := rfl
  refine ⟨?_, ?_, ?_, ?_, ?_⟩
  · intro c hc
    rw [hdata] at hc
    have h2 := mem_collapse_underscores false _
      ((strip_underscores_sublist _).subset hc)
    exact (List.mem_filter.1 h2).2
  · intro c hc
    rw [hdata] at hc
    have h2 := mem_collapse_underscores false _
      ((strip_underscores_sublist _).subset hc)
    have hall := (List.mem_filter.1 h2).2
    intro hsp
    rw [hsp] at hall
    exact absurd hall (by decide)
  · rw [hdata]
    have h1 := (chain_collapse_underscores false
        ((s.data.map space_to_underscore).filter allowed_char)).suffix
      (List.dropWhile_suffix (fun c => c = '_'))
    have h2 := List.rdropWhile_prefix (fun c => c = '_')
      ((collapse_underscores false
        ((s.data.map space_to_underscore).filter allowed_char)).dropWhile
          (fun c => c = '_'))
    exact List.Chain'.prefix h1 h2
  · rw [hdata]; exact head_strip_underscores _
  · rw [hdata]; exact getLast_strip_underscores _


/-- Concrete instance of `c6_sanitize_topic`: a character of the
sanitized form of `" a__b c "` is in the allowed class, and the result
neither starts nor ends with an underscore. -/
theorem c6_sanitize_topic_witness :
    allowed_char 'a' = true ∧
    (sanitize_topic " a__b c ").data.head? ≠ some '_' ∧
    (sanitize_topic " a__b c ").data.getLast? ≠ some '_' := by
  have h := c6_sanitize_topic " a__b c "
  refine ⟨?_, h.2.2.2.1, h.2.2.2.2⟩
  have ha := h.1 'a' (by decide)
  simpa using ha

/-- A parsed command payload (the JSON dict handed to
`MQTTHandler._handle_entity_command` / `WebServer._handle_entity_control`);
`none` means the field is absent.  Numeric fields the handlers feed into
arithmetic are modelled as rationals. -/
structure Payload where
  state : Option PyVal := none
  brightness : Option ℚ := none
  level : Option ℚ := none
  color_temp : Option ℚ := none
  mode : Option PyVal := none
  target_temp : Option ℚ := none
  temperature : Option ℚ := none
  fan_mode : Option PyVal := none
  command : Option String := none
  position : Option ℚ := none
  target_humidity : Option ℚ := none
  value : Option PyVal := none
  option : Option PyVal := none
deriving DecidableEq

/-- Python `==` between payload values (`True == 1`, numbers compare
numerically, strings compare as strings). -/
def pyEq : PyVal → PyVal → Bool
  | .num a, .num b => a == b
  | .num a, .bool b => a == (if b then 1 else 0)
  | .bool a, .num b => (if a then (1 : ℚ) else 0) == b
  | .bool a, .bool b => a == b
  | .str a, .str b => a == b
  | _, _ => false

/-- `data['state'] in ['ON', True, 1, 'true']`. -/
def stateIsOn (v : PyVal) : Bool :=
  pyEq v (.str "ON") || pyEq v (.bool true) || pyEq v (.num 1) ||
    pyEq v (.str "true")

/-- `data['state'] in ['ON', True]` (humidifier branch). -/
def stateIsOnHum (v : PyVal) : Bool :=
  pyEq v (.str "ON") || pyEq v (.bool true)

/-- Python `str.lower()` (ASCII commands in this code base), defined
per character so concrete instances evaluate. -/
def py_lower (s : String) : String := ⟨s.data.map Char.toLower⟩

/-- `dps_changes[k] = v` on the accumulated dict.  Keys are
`Option ℤ` because the cover and vacuum branches use the raw result of
`entity.get_dps(...)` (possibly `None`) as the dict key. -/
def dictInsert : List (Option ℤ × PyVal) → Option ℤ → PyVal →
    List (Option ℤ × PyVal)
  | [], k, v => [(k, v)]
  | (k2, v2) :: rest, k, v =>
    if k2 = k then (k, v) :: rest else (k2, v2) :: dictInsert rest k v

/-- The guarded write pattern `if dps: dps_changes[dps] = v` (Python
truthiness: `None` and `0` are both falsy). -/
def insertGuarded (dc : List (Option ℤ × PyVal)) (dpsOpt : Option ℤ)
    (v : PyVal) : List (Option ℤ × PyVal) :=
  match dpsOpt with
  | some n => if n ≠ 0 then dictInsert dc (some n) v else dc
  | none => dc

/-- Light/switch/fan branch of `MQTTHandler._handle_entity_command`
(`src/mqtt_handler.py` lines 115-133). -/
def translate_light (e : Entity) (data : Payload) : List (Option ℤ × PyVal) :=
  let dc : List (Option ℤ × PyVal) := []
  let dc := match data.state with
    | some v => insertGuarded dc (e.get_dps ("switch")) (.bool (stateIsOn v))
    | none => dc
  let dc := match data.brightness with
    | some b =>
      if e.platform ∈ [("light" : String), "fan"] then
        let key := if e.platform = "light" then "brightness" else "speed"
        let r := if e.platform = "light" then e.brightness_range
                 else e.speed_range
        insertGuarded dc (e.get_dps key)
          (.num (pyInt (r.1 + b / 255 * (r.2 - r.1))))
      else dc
    | none => dc
  let dc := match data.color_temp with
    | some ct =>
      if e.platform = "light" then
        insertGuarded dc (e.get_dps ("color_temp"))
          (.num (pyInt (e.color_temp_range.1 +
            ct / 500 * (e.color_temp_range.2 - e.color_temp_range.1))))
      else dc
    | none => dc
  dc

/-- Climate branch (`src/mqtt_handler.py` lines 136-151); the
temperature write requires both a truthy DPS number and a truthy
temperature (`if temp_dps and temp`). -/
def translate_climate (e : Entity) (data : Payload) : List (Option ℤ × PyVal) :=
  let dc : List (Option ℤ × PyVal) := []
  let dc := match data.mode with
    | some v => insertGuarded dc (e.get_dps ("mode")) v
    | none => dc
  let dc := match data.target_temp <|> data.temperature with
    | some t =>
      match e.get_dps ("target_temp") with
      | some n =>
        if n ≠ 0 ∧ t ≠ 0 then
          dictInsert dc (some n) (.num (pyInt (t / e.temp_step)))
        else dc
      | none => dc
    | none => dc
  let dc := match data.fan_mode with
    | some v => insertGuarded dc (e.get_dps ("fan_mode")) v
    | none => dc
  dc

/-- Cover branch (`src/mqtt_handler.py` lines 154-168): open/close/stop
write through the raw `get_dps` result with no presence guard. -/
def translate_cover (e : Entity) (data : Payload) : List (Option ℤ × PyVal) :=
  let dc : List (Option ℤ × PyVal) := []
  let dc := match data.command with
    | some c =>
      let cmd := py_lower c
      if cmd = "open" then dictInsert dc (e.get_dps ("switch")) (.bool true)
      else if cmd = "close" then
        dictInsert dc (e.get_dps ("switch")) (.bool false)
      else if cmd = "stop" then
        dictInsert dc (e.get_dps ("direction")) (.str "stop")
      else dc
    | none => dc
  let dc := match data.position with
    | some p => insertGuarded dc (e.get_dps ("position")) (.num (pyInt p))
    | none => dc
  dc

/-- Lock branch (`src/mqtt_handler.py` lines 171-176).  A non-string
`state` value would make Python's `.lower()` raise; it is modelled as
the empty string default of `data.get(..., '')`. -/
def translate_lock (e : Entity) (data : Payload) : List (Option ℤ × PyVal) :=
  if data.command.isSome ∨ data.state.isSome then
    let cmd := py_lower (data.command.getD
      (match data.state with
       | some (.str s) => s
       | _ => ""))
    insertGuarded [] (e.get_dps ("lock")) (.bool (cmd = "lock"))
  else []

/-- Alarm branch (`src/mqtt_handler.py` lines 179-185): the `states`
dict is inverted (`{v: k for k, v in ...}`, later entries win) and the
command must be one of its keys. -/
def translate_alarm_panel (e : Entity) (data : Payload) :
    List (Option ℤ × PyVal) :=
  match data.command with
  | some c =>
    let cmd := py_lower c
    match e.get_dps ("state") with
    | some n =>
      if n ≠ 0 then
        match ((e.states.map (fun p => (p.2, p.1))).reverse).lookup cmd with
        | some v => dictInsert [] (some n) (.str v)
        | none => []
      else []
    | none => []
  | none => []

/-- Vacuum branch (`src/mqtt_handler.py` lines 188-204): start/stop/
pause/return_to_base write through the raw `get_dps` result with no
presence guard; an explicit `mode` field is guarded. -/
def translate_vacuum (e : Entity) (data : Payload) : List (Option ℤ × PyVal) :=
  let dc : List (Option ℤ × PyVal) := []
  let dc := match data.command with
    | some c =>
      let cmd := py_lower c
      if cmd = "start" then dictInsert dc (e.get_dps ("power")) (.bool true)
      else if cmd = "stop" ∨ cmd = "pause" then
        dictInsert dc (e.get_dps ("power")) (.bool false)
      else if cmd = "return_to_base" then
        dictInsert dc (e.get_dps ("mode")) (.str "return")
      else dc
    | none => dc
  let dc := match data.mode with
    | some v => insertGuarded dc (e.get_dps ("mode")) v
    | none => dc
  dc

/-- Humidifier branch (`src/mqtt_handler.py` lines 207-221). -/
def translate_humidifier (e : Entity) (data : Payload) :
    List (Option ℤ × PyVal) :=
  let dc : List (Option ℤ × PyVal) := []
  let dc := match data.state with
    | some v => insertGuarded dc (e.get_dps ("switch")) (.bool (stateIsOnHum v))
    | none => dc
  let dc := match data.mode with
    | some v => insertGuarded dc (e.get_dps ("mode")) v
    | none => dc
  let dc := match data.target_humidity with
    | some h => insertGuarded dc (e.get_dps ("target_humidity"))
        (.num (pyInt h))
    | none => dc
  dc

/-- Number branch (`src/mqtt_handler.py` lines 224-228). -/
def translate_number (e : Entity) (data : Payload) : List (Option ℤ × PyVal) :=
  match data.value with
  | some v => insertGuarded [] (e.get_dps ("value")) v
  | none => []

/-- Select branch (`src/mqtt_handler.py` lines 231-235). -/
def translate_select (e : Entity) (data : Payload) : List (Option ℤ × PyVal) :=
  match data.option with
  | some v => insertGuarded [] (e.get_dps ("option")) v
  | none => []

/-- The translation step of `MQTTHandler._handle_entity_command`
(`src/mqtt_handler.py` lines 108-235): the `dps_changes` dict computed
from entity and payload before any write is applied. -/
def mqtt_translate (e : Entity) (data : Payload) : List (Option ℤ × PyVal) :=
  if e.platform ∈ [("light" : String), "switch", "fan"] then
    translate_light e data
  else if e.platform = "climate" then translate_climate e data
  else if e.platform = "cover" then translate_cover e data
  else if e.platform = "lock" then translate_lock e data
  else if e.platform = "alarm_control_panel" then translate_alarm_panel e data
  else if e.platform = "vacuum" then translate_vacuum e data
  else if e.platform = "humidifier" then translate_humidifier e data
  else if e.platform = "number" then translate_number e data
  else if e.platform = "select" then translate_select e data
  else []

/-- Python `a or b` on optional DPS numbers (`None` and `0` are falsy). -/
def pyOrOpt (a b : Option ℤ) : Option ℤ :=
  match a with
  | some n => if n ≠ 0 then some n else b
  | none => b

/-- The translation step of `WebServer._handle_entity_control`
(`src/web_server.py` lines 143-203): the `dps_changes` dict computed by
the HTTP "set entity" endpoint before any write is applied. -/
def http_translate (e : Entity) (data : Payload) : List (Option ℤ × PyVal) :=
  let dc : List (Option ℤ × PyVal) := []
  let dc := match data.state with
    | some v => insertGuarded dc
        (pyOrOpt (pyOrOpt (e.get_dps ("switch")) (e.get_dps ("power")))
          (e.get_dps ("lock"))) v
    | none => dc
  let dc := match data.brightness <|> data.level with
    | some b =>
      let r := if e.platform = "light" then e.brightness_range
               else e.speed_range
      insertGuarded dc (pyOrOpt (e.get_dps ("brightness")) (e.get_dps ("speed")))
        (.num (pyInt (r.1 + b / 100 * (r.2 - r.1))))
    | none => dc
  let dc := match data.temperature <|> data.target_temp with
    | some t => insertGuarded dc (e.get_dps ("target_temp"))
        (.num (pyInt (t / e.temp_step)))
    | none => dc
  let dc := match data.mode with
    | some v => insertGuarded dc (e.get_dps ("mode")) v
    | none => dc
  let dc := match data.position with
    | some p => insertGuarded dc (e.get_dps ("position")) (.num (pyInt p))
    | none => dc
  let dc := match data.target_humidity with
    | some h => insertGuarded dc (e.get_dps ("target_humidity"))
        (.num (pyInt h))
    | none => dc
  dc

/-- `dictInsert` with a real DPS key never introduces the `none` key. -/
theorem not_none_dictInsert (v w : PyVal) (n : ℤ) :
    ∀ dc : List (Option ℤ × PyVal), (none, v) ∉ dc →
      (none, v) ∉ dictInsert dc (some n) w := by
  intro dc
  induction dc with
  | nil =>
    intro _ hmem
    rcases List.mem_singleton.1 hmem with h
    exact Option.noConfusion (congrArg Prod.fst h)
  | cons p rest ih =>
    obtain ⟨k2, v2⟩ := p
    intro hdc hmem
    simp only [dictInsert] at hmem
    by_cases hk : k2 = some n
    · rw [if_pos hk] at hmem
      rcases List.mem_cons.1 hmem with h | h
      · exact Option.noConfusion (congrArg Prod.fst h)
      · exact hdc (List.mem_cons_of_mem _ h)
    · rw [if_neg hk] at hmem
      rcases List.mem_cons.1 hmem with h | h
      · exact hdc (List.mem_cons.2 (Or.inl h))
      · exact ih (fun hm => hdc (List.mem_cons_of_mem _ hm)) h

/-- The guarded write pattern never introduces the `none` key. -/
theorem not_none_insertGuarded (v w : PyVal) (o : Option ℤ)
    (dc : List (Option ℤ × PyVal)) (h : (none, v) ∉ dc) :
    (none, v) ∉ insertGuarded dc o w := by
  cases o with
  | none => exact h
  | some n =>
    show (none, v) ∉ (if n ≠ 0 then dictInsert dc (some n) w else dc)
    by_cases hn : n ≠ 0
    · rw [if_pos hn]; exact not_none_dictInsert v w n dc h
    · rw [if_neg hn]; exact h

/-- The light/switch/fan branch only writes guarded keys. -/
theorem not_none_translate_light (e : Entity) (data : Payload) (v : PyVal) :
    (none, v) ∉ translate_light e data := by
  simp only [translate_light]
  repeat' split
  all_goals
    repeat' first
      | exact List.not_mem_nil _
      | apply not_none_insertGuarded

/-- The lock branch only writes guarded keys. -/
theorem not_none_translate_lock (e : Entity) (data : Payload) (v : PyVal) :
    (none, v) ∉ translate_lock e data := by
  simp only [translate_lock]
  repeat' split
  all_goals
    repeat' first
      | exact List.not_mem_nil _
      | apply not_none_insertGuarded

/-- The humidifier branch only writes guarded keys. -/
theorem not_none_translate_humidifier (e : Entity) (data : Payload) (v : PyVal) :
    (none, v) ∉ translate_humidifier e data := by
  simp only [translate_humidifier]
  repeat' split
  all_goals
    repeat' first
      | exact List.not_mem_nil _
      | apply not_none_insertGuarded

/-- The number branch only writes guarded keys. -/
theorem not_none_translate_number (e : Entity) (data : Payload) (v : PyVal) :
    (none, v) ∉ translate_number e data := by
  simp only [translate_number]
  repeat' split
  all_goals
    repeat' first
      | exact List.not_mem_nil _
      | apply not_none_insertGuarded

/-- The select branch only writes guarded keys. -/
theorem not_none_translate_select (e : Entity) (data : Payload) (v : PyVal) :
    (none, v) ∉ translate_select e data := by
  simp only [translate_select]
  repeat' split
  all_goals
    repeat' first
      | exact List.not_mem_nil _
      | apply not_none_insertGuarded

/-- C10: the cover and vacuum branches insert DPS writes keyed by the
absent-mapping marker `none` when the needed mapping is missing, while
the light/switch/fan, lock, humidifier, number and select branches only
ever write presence-guarded keys. -/
theorem c10_missing_mapping_guards :
    (∀ (e : Entity) (data : Payload), e.platform = "cover" →
      e.get_dps ("switch") = none → data.command = some "open" →
      data.position = none → mqtt_translate e data = [(none, .bool true)]) ∧
    (∀ (e : Entity) (data : Payload), e.platform = "cover" →
      e.get_dps ("direction") = none → data.command = some "stop" →
      data.position = none → mqtt_translate e data = [(none, .str "stop")]) ∧
    (∀ (e : Entity) (data : Payload), e.platform = "vacuum" →
      e.get_dps ("power") = none → data.command = some "start" →
      data.mode = none → mqtt_translate e data = [(none, .bool true)]) ∧
    (∀ (e : Entity) (data : Payload), e.platform = "vacuum" →
      e.get_dps ("mode") = none → data.command = some "return_to_base" →
      data.mode = none → mqtt_translate e data = [(none, .str "return")]) ∧
    (∀ (e : Entity) (data : Payload),
      e.platform ∈ [("light" : String), "switch", "fan", "lock",
        "humidifier", "number", "select"] →
      ∀ v : PyVal, (none, v) ∉ mqtt_translate e data) := by
  refine ⟨?_, ?_, ?_, ?_, ?_⟩
  · intro e data hp hdps hcmd hpos
    simp [mqtt_translate, hp, translate_cover, hcmd, hpos, hdps,
      py_lower, dictInsert]
  · intro e data hp hdps hcmd hpos
    simp [mqtt_translate, hp, translate_cover, hcmd, hpos, hdps,
      py_lower, dictInsert]
  · intro e data hp hdps hcmd hmode
    simp [mqtt_translate, hp, translate_vacuum, hcmd, hmode, hdps,
      py_lower, dictInsert]
  · intro e data hp hdps hcmd hmode
    simp [mqtt_translate, hp, translate_vacuum, hcmd, hmode, hdps,
      py_lower, dictInsert]
  · intro e data hp v
    have h : e.platform = "light" ∨ e.platform = "switch" ∨
        e.platform = "fan" ∨ e.platform = "lock" ∨
        e.platform = "humidifier" ∨ e.platform = "number" ∨
        e.platform = "select" := by simpa using hp
    rcases h with h | h | h | h | h | h | h <;>
      simp only [mqtt_translate, h] <;> simp <;>
      first
        | exact not_none_translate_light e data v
        | exact not_none_translate_lock e data v
        | exact not_none_translate_humidifier e data v
        | exact not_none_translate_number e data v
        | exact not_none_translate_select e data v

/-- Concrete cover entity with no `switch` mapping, for the
`c10_missing_mapping_guards` witness. -/
def entC10 : Entity := { device_id := "d", platform := "cover" }

/-- Concrete instance of `c10_missing_mapping_guards`: an `open`
command on a cover with no `switch` mapping still produces a write,
keyed by `none`. -/
theorem c10_missing_mapping_guards_witness :
    mqtt_translate entC10 { command := some "open" } = [(none, .bool true)] :=
  c10_missing_mapping_guards.1 entC10 { command := some "open" }
    rfl rfl rfl rfl

/-- Concrete climate entity (default `temp_step = 0.5`) for C4. -/
def entC4 : Entity :=
  { device_id := "d", platform := "climate", dps_map := [("target_temp", 2)] }

/-- C4 counterexample: a command carrying `target_temp = 0` produces no
DPS write at all (the code guards on the Python truthiness of the
temperature), where the claim promises a write of `int(0 / 0.5) = 0`. -/
theorem c4_zero_temp_counterexample :
    entC4.get_dps ("target_temp") = some 2 ∧ (0 : ℚ) < entC4.temp_step ∧
    mqtt_translate entC4 { target_temp := some 0 } = [] := by
  refine ⟨rfl, by norm_num [entC4], ?_⟩
  simp [mqtt_translate, entC4, translate_climate, Entity.get_dps,
    List.lookup_cons]

/-- C4 as amended: for a climate entity with a truthy `target_temp`
mapping and a truthy (nonzero) requested temperature — carried in either
the `target_temp` field or its `temperature` alias, with `target_temp`
taking priority exactly as `data.get('target_temp',
data.get('temperature'))` does — the translation writes
`int(temp / temp_step)` — Python truncation toward zero — to the mapped
DPS number. -/
theorem c4_translate_temp (e : Entity) (n : ℤ) (t : ℚ) (data : Payload)
    (hp : e.platform = "climate") (hdps : e.get_dps ("target_temp") = some n)
    (hn : n ≠ 0) (hstep : 0 < e.temp_step)
    (ht : (data.target_temp <|> data.temperature) = some t)
    (ht0 : t ≠ 0) (hm : data.mode = none) (hf : data.fan_mode = none) :
    mqtt_translate e data = [(some n, .num (pyInt (t / e.temp_step)))] := by
  simp [mqtt_translate, hp, translate_climate, hm, ht, hdps, hf, hn, ht0,
    dictInsert]

/-- Concrete instance of `c4_translate_temp`: `target_temp = 21.5` with
`temp_step = 0.5` writes the integer `43`, whether the temperature is
carried as `target_temp` or under its `temperature` alias. -/
theorem c4_translate_temp_witness :
    mqtt_translate entC4 { target_temp := some (43/2) } = [(some 2, .num 43)] ∧
    mqtt_translate entC4 { temperature := some (43/2) } = [(some 2, .num 43)] := by
  have h1 := c4_translate_temp entC4 2 (43/2) { target_temp := some (43/2) }
    rfl rfl (by decide) (by norm_num [entC4]) rfl (by norm_num) rfl rfl
  have h2 := c4_translate_temp entC4 2 (43/2) { temperature := some (43/2) }
    rfl rfl (by decide) (by norm_num [entC4]) rfl (by norm_num) rfl rfl
  rw [h1, h2]
  constructor <;> norm_num [entC4, pyInt]

/-- Concrete light entity (default `brightness_range = [10, 1000]`)
for C5. -/
def entC5 : Entity :=
  { device_id := "d", platform := "light",
    dps_map := [("switch", 1), ("brightness", 2)] }

/-- C5 counterexample: brightness `1` is translated to
`int(10 + (1/255)*990) = 13`, while rounding to the nearest integer (as
the claim states) would give `14`. -/
theorem c5_round_counterexample :
    mqtt_translate entC5 { brightness := some 1 } = [(some 2, .num 13)] ∧
    round ((10 : ℚ) + 1 / 255 * (1000 - 10)) = 14 := by
  constructor
  · simp [mqtt_translate, entC5, translate_light, Entity.get_dps,
      List.lookup_cons, insertGuarded, dictInsert]
    norm_num [pyInt]
  · norm_num [round_eq]

/-- C5 as amended: for a light with a truthy `brightness` mapping, a
brightness `b` in 0-255 is translated to the linear rescale into
`brightness_range` truncated toward zero (Python `int()`), not rounded
to nearest. -/
theorem c5_translate_brightness (e : Entity) (n : ℤ) (b : ℚ) (data : Payload)
    (hp : e.platform = "light") (hdps : e.get_dps ("brightness") = some n)
    (hn : n ≠ 0) (hb0 : 0 ≤ b) (hb255 : b ≤ 255) (hb : data.brightness = some b)
    (hs : data.state = none) (hct : data.color_temp = none) :
    mqtt_translate e data
      = [(some n, .num (pyInt (e.brightness_range.1 +
          b / 255 * (e.brightness_range.2 - e.brightness_range.1))))] := by
  simp [mqtt_translate, hp, translate_light, hs, hb, hct, hdps, hn,
    insertGuarded, dictInsert]

/-- Concrete instance of `c5_translate_brightness`: at the endpoints the
claimed values hold, brightness 255 writes 1000 and brightness 0
writes 10. -/
theorem c5_translate_brightness_witness :
    mqtt_translate entC5 { brightness := some 255 } = [(some 2, .num 1000)] ∧
    mqtt_translate entC5 { brightness := some 0 } = [(some 2, .num 10)] := by
  have h1 := c5_translate_brightness entC5 2 255 { brightness := some 255 }
    rfl rfl (by decide) (by norm_num) (by norm_num) rfl rfl rfl
  have h2 := c5_translate_brightness entC5 2 0 { brightness := some 0 }
    rfl rfl (by decide) (by norm_num) (by norm_num) rfl rfl rfl
  rw [h1, h2]
  constructor <;> norm_num [entC5, pyInt]

/-- Concrete light entity for C7. -/
def entC7 : Entity :=
  { device_id := "d", platform := "light",
    dps_map := [("switch", 1), ("brightness", 2)] }

/-- C7: the HTTP control endpoint does not reuse the MQTT translation:
for the same light entity and the same `{"brightness": 255}` payload the
MQTT router writes 1000 (0-255 input scale) while the HTTP endpoint
writes 2534 (it rescales from a 0-100 input range). -/
theorem c7_http_differs_from_mqtt :
    mqtt_translate entC7 { brightness := some 255 } = [(some 2, .num 1000)] ∧
    http_translate entC7 { brightness := some 255 } = [(some 2, .num 2534)] ∧
    mqtt_translate entC7 { brightness := some 255 }
      ≠ http_translate entC7 { brightness := some 255 } := by
  have h1 : mqtt_translate entC7 { brightness := some 255 }
      = [(some 2, .num 1000)] := by
    simp [mqtt_translate, entC7, translate_light, Entity.get_dps,
      List.lookup_cons, insertGuarded, dictInsert]
    norm_num [pyInt]
  have h2 : http_translate entC7 { brightness := some 255 }
      = [(some 2, .num 2534)] := by
    simp [http_translate, entC7, Entity.get_dps, List.lookup_cons,
      pyOrOpt, insertGuarded, dictInsert]
    norm_num [pyInt]
  refine ⟨h1, h2, ?_⟩
  rw [h1, h2]
  intro h
  simp only [List.cons.injEq, Prod.mk.injEq, PyVal.num.injEq] at h
  norm_num at h

/-- Python `s.replace(pat, rep)` on character lists: replace every
(non-overlapping, leftmost-first) occurrence of `pat`.  The source only
calls it with the nonempty pattern `f"{base_topic}/"`, so the empty
pattern (which Python treats specially) is mapped to the identity. -/
def py_replace_go (pat rep : List Char) : Nat → List Char → List Char
  | _, [] => []
  | 0, l => l
  | fuel + 1, c :: rest =>
    if pat ≠ [] ∧ pat.isPrefixOf (c :: rest) then
      rep ++ py_replace_go pat rep fuel ((c :: rest).drop pat.length)
    else c :: py_replace_go pat rep fuel rest

/-- Python `s.replace(pat, rep)` on character lists (the fuel, one unit
per consumed character, is never exhausted). -/
def py_replace (pat rep l : List Char) : List Char :=
  py_replace_go pat rep l.length l

/-- Python `s.split(sep)` for a one-character separator. -/
def split_on_char (sep : Char) : List Char → List (List Char)
  | [] => [[]]
  | c :: rest =>
    if c = sep then [] :: split_on_char sep rest
    else
      match split_on_char sep rest with
      | h :: t => (c :: h) :: t
      | [] => [[c]]

/-- The `{baseTopic}/{device_id}/{sanitizedEntityId}` companion topic of
`HomeAssistantDiscovery._publish_entity_discovery`
(`src/homeassistant.py` line 58). -/
def entity_topic (base_topic : String) (d : TuyaDevice) (e : Entity) : String :=
  base_topic ++ "/" ++ d.device_id ++ "/" ++ sanitize_topic e.entity_id

/-- The `command_topic` advertised in the discovery payload for switch
and light entities (`src/homeassistant.py` lines 81, 96). -/
def command_topic_set (base_topic : String) (d : TuyaDevice) (e : Entity) :
    String :=
  entity_topic base_topic d e ++ "/set"

/-- The entity resolution of `MQTTHandler._on_message`
(`src/mqtt_handler.py` lines 77-103): strip the base-topic prefix, split
on `/`, look up the device by the first segment and the entity by
`f"{device_id}_{parts[1]}"`. -/
def router_resolve (base_topic : String)
    (devices : List (String × TuyaDevice)) (topic : String) : Option Entity :=
  let t : List Char := py_replace (base_topic ++ "/").data [] topic.data
  let parts : List String := (split_on_char '/' t).map (fun l => ⟨l⟩)
  if parts.length < 2 then none
  else
    match devices.lookup (parts.getD 0 "") with
    | none => none
    | some device =>
      if 3 ≤ parts.length ∧ parts.getD 2 "" ∈ [("set" : String), "command"] then
        device.get_entity_by_id (parts.getD 0 "" ++ "_" ++ parts.getD 1 "")
      else none

/-- Concrete switch entity and device for C8. -/
def entC8 : Entity :=
  { device_id := "bf123", platform := "switch", name := "light",
    dps_map := [("switch", 1)] }

/-- The device owning `entC8`. -/
def devC8 : TuyaDevice := { device_id := "bf123", entities := [entC8] }

/-- C8: the discovery payload advertises the command topic
`{base}/{device_id}/{sanitize(entity_id)}/set`, but the router resolves
the second segment `s` by looking up `f"{device_id}_{s}"`, i.e. it
expects the entity's local name.  On the advertised topic the lookup
key becomes `bf123_bf123_light`, which matches no entity, so the round
trip fails; the router only resolves the never-advertised local-name
topic. -/
theorem c8_roundtrip_fails :
    command_topic_set ("tuya2mqtt") devC8 entC8
      = "tuya2mqtt/bf123/bf123_light/set" ∧
    router_resolve ("tuya2mqtt") [("bf123", devC8)]
      "tuya2mqtt/bf123/bf123_light/set" = none ∧
    router_resolve ("tuya2mqtt") [("bf123", devC8)]
      "tuya2mqtt/bf123/light/set" = some entC8 := by
  refine ⟨rfl, rfl, rfl⟩

end Tuya2Mqtt
